import Mathlib

/-
Verification of the Optilm-Air data-collection pipeline.

The Python code manipulates JSON-like dictionaries; we embed JSON values
as the inductive type `JVal` (numbers as rationals), Python `None` as
`JVal.null` or, for `Optional` return types, as `Option JVal`, and Python
exceptions as the `Except PyErr` monad.  Each embedded function mirrors
its source function field access by field access, in source order.
-/

namespace OptilmAir

/-- A JSON value as manipulated by the Python code: `null`, booleans,
numbers (modelled as rationals), strings, arrays and objects (ordered
key/value lists, mirroring Python dict insertion order). -/
inductive JVal where
  | null
  | bool (b : Bool)
  | num (q : ℚ)
  | str (s : String)
  | arr (elems : List JVal)
  | obj (fields : List (String × JVal))

/-- A Python exception, tagged by kind (the carried message never matters
to a claim). -/
inductive PyErr where
  | keyError (key : String)
  | typeError
  | indexError
  | attributeError
  | ioError
  | importError
  | connectionError
  deriving DecidableEq

/-- Python truthiness of a JSON value: `None`, `False`, `0`, the empty
string, the empty list and the empty dict are falsy. -/
def pyTruthy : JVal → Bool
  | .null => false
  | .bool b => b
  | .num q => q != 0
  | .str s => s != ""
  | .arr xs => !xs.isEmpty
  | .obj kvs => !kvs.isEmpty

/-- Lookup of a key in an object field list (Python dict lookup). -/
def jlookup (kvs : List (String × JVal)) (k : String) : Option JVal :=
  match kvs with
  | [] => none
  | (k2, v) :: rest => if k2 = k then some v else jlookup rest k

/-! ## Python dictionary / sequence access semantics -/

/-- Strict dict subscript `data[k]` on a known dict: `KeyError` when the
key is absent. -/
def reqGet (kvs : List (String × JVal)) (k : String) : Except PyErr JVal :=
  match jlookup kvs k with
  | some v => .ok v
  | none => .error (.keyError k)

/-- Subscript `v[k]` with a string key on an arbitrary value: only dicts
support it (`TypeError` otherwise). -/
def pySubscript (v : JVal) (k : String) : Except PyErr JVal :=
  match v with
  | .obj kvs => reqGet kvs k
  | _ => .error .typeError

/-- Method call `v.get(k, dflt)`: `AttributeError` when the receiver is
not a dict. -/
def elemGet (v : JVal) (k : String) (dflt : JVal) : Except PyErr JVal :=
  match v with
  | .obj kvs => .ok ((jlookup kvs k).getD dflt)
  | _ => .error .attributeError

/-- Substring test used by `k in s` on strings. -/
def strContains (k s : String) : Bool :=
  if k = "" then true else decide ((s.splitOn k).length > 1)

/-- Membership test `k in v` for a string `k`: key test on dicts, element
equality on lists (a string never equals a non-string), substring test on
strings, `TypeError` otherwise. -/
def pyContains (v : JVal) (k : String) : Except PyErr Bool :=
  match v with
  | .obj kvs => .ok (jlookup kvs k).isSome
  | .arr xs => .ok (xs.any fun x => match x with | .str s => s == k | _ => false)
  | .str s => .ok (strContains k s)
  | _ => .error .typeError

/-- Iteration `for x in v`: lists yield their elements, dicts their keys,
strings their one-character substrings; anything else raises
`TypeError`. -/
def pyIterate (v : JVal) : Except PyErr (List JVal) :=
  match v with
  | .arr xs => .ok xs
  | .obj kvs => .ok (kvs.map fun kv => .str kv.1)
  | .str s => .ok (s.toList.map fun c => .str (String.mk [c]))
  | _ => .error .typeError

/-- Subscript `v[0]`: `IndexError` on an empty sequence, `TypeError` on a
non-sequence. -/
def pyIndexZero (v : JVal) : Except PyErr JVal :=
  match v with
  | .arr (x :: _) => .ok x
  | .arr [] => .error .indexError
  | .str s =>
      match s.toList with
      | c :: _ => .ok (.str (String.mk [c]))
      | [] => .error .indexError
  | _ => .error .typeError

/-- Slice-then-iterate `for x in v[:n]`: lists and strings support
slicing, anything else raises `TypeError`. -/
def pySliceIter (v : JVal) (n : Nat) : Except PyErr (List JVal) :=
  match v with
  | .arr xs => .ok (xs.take n)
  | .str s => .ok ((s.toList.take n).map fun c => .str (String.mk [c]))
  | _ => .error .typeError

/-- Multiplication `v * q` as used on `item.get("pop", 0) * 100`: numbers
(and booleans, which are ints in Python) multiply; sequence repetition is
not modelled (no claim evaluates it) and is mapped to `TypeError`. -/
def pyMulNum (v : JVal) (q : ℚ) : Except PyErr JVal :=
  match v with
  | .num a => .ok (.num (a * q))
  | .bool b => .ok (.num ((if b then (1 : ℚ) else 0) * q))
  | _ => .error .typeError

/-- The text of `str(e)` interpolated into `{error: str(e)}` marker
objects; no claim inspects it beyond it being some string. -/
def errStr : PyErr → String
  | .keyError k => k
  | .typeError => "TypeError"
  | .indexError => "IndexError"
  | .attributeError => "AttributeError"
  | .ioError => "OSError"
  | .importError => "ImportError"
  | .connectionError => "ConnectionError"

/-- The outcome of one HTTP sub-request as seen by the calling coroutine:
an exception (timeout, transport error) or a response with a status code
and a JSON body.  Bodies are modelled as JSON objects (the upstream APIs
return objects). -/
inductive HttpOutcome where
  | exn (e : PyErr)
  | resp (status : Nat) (body : List (String × JVal))

/-! ## Air-quality collector
(src/data_collectors/air_quality_collector.py, AirQualityCollector) -/

/-- One iteration of the `indexes` loop in
`_process_air_quality_response` (lines 93-101): the five `.get` accesses
in source order, building `index_data`. -/
def process_index (index : JVal) : Except PyErr JVal := do
  let code ← elemGet index "code" .null
  let display_name ← elemGet index "displayName" .null
  let aqi ← elemGet index "aqi" .null
  let category ← elemGet index "category" .null
  let color ← elemGet index "color" (.obj [])
  return .obj [("code", code), ("display_name", display_name), ("aqi", aqi),
    ("category", category), ("color", color)]

/-- One iteration of the `pollutants` loop in
`_process_air_quality_response` (lines 106-114). -/
def process_pollutant (p : JVal) : Except PyErr JVal := do
  let code ← elemGet p "code" .null
  let display_name ← elemGet p "displayName" .null
  let full_name ← elemGet p "fullName" .null
  let concentration ← elemGet p "concentration" (.obj [])
  let additional_info ← elemGet p "additionalInfo" (.obj [])
  return .obj [("code", code), ("display_name", display_name),
    ("full_name", full_name), ("concentration", concentration),
    ("additional_info", additional_info)]

/-- The try-block body of `_process_air_quality_response` (lines 84-128),
field access by field access in source order; `now` is the
`collected_at` timestamp taken at line 86. -/
def air_quality_attempt (now : String) (raw : List (String × JVal)) :
    Except PyErr (List (String × JVal)) := do
  let base : List (String × JVal) :=
    [("collected_at", .str now), ("data_source", .str "gcp_air_quality_api")]
  let idxPart : List (String × JVal) ←
    match jlookup raw "indexes" with
    | none => pure []
    | some v => do
        let elems ← pyIterate v
        let processed ← elems.mapM process_index
        pure [("indexes", JVal.arr processed)]
  let polPart : List (String × JVal) ←
    match jlookup raw "pollutants" with
    | none => pure []
    | some v => do
        let elems ← pyIterate v
        let processed ← elems.mapM process_pollutant
        pure [("pollutants", JVal.arr processed)]
  let hrPart : List (String × JVal) :=
    match jlookup raw "healthRecommendations" with
    | none => [] | some v => [("health_recommendations", v)]
  let dpPart : List (String × JVal) :=
    match jlookup raw "dominantPollutant" with
    | none => [] | some v => [("dominant_pollutant", v)]
  let rcPart : List (String × JVal) :=
    match jlookup raw "regionCode" with
    | none => [] | some v => [("region_code", v)]
  return base ++ idxPart ++ polPart ++ hrPart ++ dpPart ++ rcPart

/-- `AirQualityCollector._process_air_quality_response` (lines 74-132):
run the try-block body; any exception is caught (lines 130-132) and
turned into the `{error: str(e), raw_data: raw}` marker object. -/
def _process_air_quality_response (now : String) (raw : List (String × JVal)) :
    List (String × JVal) :=
  match air_quality_attempt now raw with
  | .ok p => p
  | .error e => [("error", .str (errStr e)), ("raw_data", .obj raw)]

/-- `AirQualityCollector.get_air_quality_data` (lines 21-72): on a 200
response the processed body is returned; a non-200 status returns `None`
(lines 62-65); a timeout or any other exception is caught and returns
`None` (lines 67-72). -/
def get_air_quality_data (now : String) (h : HttpOutcome) : Option JVal :=
  match h with
  | .exn _ => none
  | .resp status body =>
      if status = 200 then some (.obj (_process_air_quality_response now body))
      else none

/-! ## Weather collector
(src/data_collectors/weather_collector.py, WeatherCollector) -/

/-- The try-block body of `_process_current_weather` (lines 152-179):
the dict-literal entries are evaluated in source order, so the first
missing mandatory key decides the raised error. -/
def current_weather_attempt (data : List (String × JVal)) : Except PyErr JVal := do
  let main ← reqGet data "main"
  let temperature ← pySubscript main "temp"
  let feels_like ← pySubscript main "feels_like"
  let humidity ← pySubscript main "humidity"
  let pressure ← pySubscript main "pressure"
  let visibility := (jlookup data "visibility").getD .null
  let uv_index := (jlookup data "uvi").getD .null
  let weatherArr ← reqGet data "weather"
  let weather0 ← pyIndexZero weatherArr
  let wmain ← pySubscript weather0 "main"
  let wdescription ← pySubscript weather0 "description"
  let wicon ← pySubscript weather0 "icon"
  let wind ← reqGet data "wind"
  let wind_speed ← pySubscript wind "speed"
  let wind_direction ← elemGet wind "deg" .null
  let wind_gust ← elemGet wind "gust" .null
  let clouds ← reqGet data "clouds"
  let clouds_all ← pySubscript clouds "all"
  let name ← reqGet data "name"
  let sys ← reqGet data "sys"
  let country ← pySubscript sys "country"
  let timezone ← reqGet data "timezone"
  let sunrise ← pySubscript sys "sunrise"
  let sunset ← pySubscript sys "sunset"
  let timestamp ← reqGet data "dt"
  return .obj [("temperature", temperature), ("feels_like", feels_like),
    ("humidity", humidity), ("pressure", pressure), ("visibility", visibility),
    ("uv_index", uv_index),
    ("weather", .obj [("main", wmain), ("description", wdescription), ("icon", wicon)]),
    ("wind", .obj [("speed", wind_speed), ("direction", wind_direction), ("gust", wind_gust)]),
    ("clouds", clouds_all),
    ("location", .obj [("name", name), ("country", country), ("timezone", timezone)]),
    ("sunrise", sunrise), ("sunset", sunset), ("timestamp", timestamp)]

/-- `WeatherCollector._process_current_weather` (lines 150-182): any
exception from the body is caught (lines 180-182) and turned into the
`{error: str(e), raw_data: data}` marker object. -/
def _process_current_weather (data : List (String × JVal)) : JVal :=
  match current_weather_attempt data with
  | .ok v => v
  | .error e => .obj [("error", .str (errStr e)), ("raw_data", .obj data)]

/-- One iteration of the forecast loop in `_process_forecast_weather`
(lines 188-204), accesses in source order. -/
def process_forecast_item (item : JVal) : Except PyErr JVal := do
  let dt ← pySubscript item "dt"
  let imain ← pySubscript item "main"
  let temperature ← pySubscript imain "temp"
  let feels_like ← pySubscript imain "feels_like"
  let humidity ← pySubscript imain "humidity"
  let pressure ← pySubscript imain "pressure"
  let weatherArr ← pySubscript item "weather"
  let weather0 ← pyIndexZero weatherArr
  let wmain ← pySubscript weather0 "main"
  let wdescription ← pySubscript weather0 "description"
  let wicon ← pySubscript weather0 "icon"
  let wind ← pySubscript item "wind"
  let wind_speed ← pySubscript wind "speed"
  let clouds ← pySubscript item "clouds"
  let clouds_all ← pySubscript clouds "all"
  let pop ← elemGet item "pop" (.num 0)
  let precipitation_probability ← pyMulNum pop 100
  return .obj [("datetime", dt), ("temperature", temperature),
    ("feels_like", feels_like), ("humidity", humidity), ("pressure", pressure),
    ("weather", .obj [("main", wmain), ("description", wdescription), ("icon", wicon)]),
    ("wind_speed", wind_speed), ("clouds", clouds_all),
    ("precipitation_probability", precipitation_probability)]

/-- The try-block body of `_process_forecast_weather` (lines 186-213):
the loop over `data["list"][:8]` runs before the city metadata is
read. -/
def forecast_weather_attempt (data : List (String × JVal)) : Except PyErr JVal := do
  let listv ← reqGet data "list"
  let items ← pySliceIter listv 8
  let forecasts ← items.mapM process_forecast_item
  let city ← reqGet data "city"
  let cityName ← pySubscript city "name"
  let cityCountry ← pySubscript city "country"
  let cityCoord ← pySubscript city "coord"
  return .obj [("city", .obj [("name", cityName), ("country", cityCountry),
    ("coordinates", cityCoord)]), ("forecasts", .arr forecasts)]

/-- `WeatherCollector._process_forecast_weather` (lines 184-216): any
exception is caught and turned into `{error: str(e)}` (no raw payload
here, unlike the current-weather marker). -/
def _process_forecast_weather (data : List (String × JVal)) : JVal :=
  match forecast_weather_attempt data with
  | .ok v => v
  | .error e => .obj [("error", .str (errStr e))]

/-- The try-block body of `_process_onecall_weather` (lines 220-251). -/
def onecall_weather_attempt (data : List (String × JVal)) : Except PyErr JVal := do
  let timezone ← reqGet data "timezone"
  let timezone_offset ← reqGet data "timezone_offset"
  let currentPart : List (String × JVal) ←
    match jlookup data "current" with
    | none => pure []
    | some current => do
        let temperature ← pySubscript current "temp"
        let feels_like ← pySubscript current "feels_like"
        let pressure ← pySubscript current "pressure"
        let humidity ← pySubscript current "humidity"
        let dew_point ← pySubscript current "dew_point"
        let uvi ← pySubscript current "uvi"
        let clouds ← pySubscript current "clouds"
        let visibility ← elemGet current "visibility" .null
        let wind_speed ← pySubscript current "wind_speed"
        let wind_deg ← elemGet current "wind_deg" .null
        let weatherArr ← pySubscript current "weather"
        let weather0 ← if pyTruthy weatherArr then pyIndexZero weatherArr else pure .null
        pure [("current_detailed", JVal.obj [("temperature", temperature),
          ("feels_like", feels_like), ("pressure", pressure), ("humidity", humidity),
          ("dew_point", dew_point), ("uvi", uvi), ("clouds", clouds),
          ("visibility", visibility), ("wind_speed", wind_speed),
          ("wind_deg", wind_deg), ("weather", weather0)])]
  let hourlyPart : List (String × JVal) ←
    match jlookup data "hourly" with
    | none => pure []
    | some v => do
        let xs ← pySliceIter v 24
        pure [("hourly", JVal.arr xs)]
  let dailyPart : List (String × JVal) ←
    match jlookup data "daily" with
    | none => pure []
    | some v => do
        let xs ← pySliceIter v 7
        pure [("daily", JVal.arr xs)]
  return .obj ([("timezone", timezone), ("timezone_offset", timezone_offset)]
    ++ currentPart ++ hourlyPart ++ dailyPart)

/-- `WeatherCollector._process_onecall_weather` (lines 218-255): any
exception is caught and turned into `{error: str(e)}`. -/
def _process_onecall_weather (data : List (String × JVal)) : JVal :=
  match onecall_weather_attempt data with
  | .ok v => v
  | .error e => .obj [("error", .str (errStr e))]

/-- `WeatherCollector._get_current_weather` (lines 74-97): processed body
on a 200 response, `None` on any other status or exception. -/
def _get_current_weather (h : HttpOutcome) : Option JVal :=
  match h with
  | .exn _ => none
  | .resp status body =>
      if status = 200 then some (_process_current_weather body) else none

/-- `WeatherCollector._get_forecast_weather` (lines 99-122). -/
def _get_forecast_weather (h : HttpOutcome) : Option JVal :=
  match h with
  | .exn _ => none
  | .resp status body =>
      if status = 200 then some (_process_forecast_weather body) else none

/-- `WeatherCollector._get_onecall_weather` (lines 124-148). -/
def _get_onecall_weather (h : HttpOutcome) : Option JVal :=
  match h with
  | .exn _ => none
  | .resp status body =>
      if status = 200 then some (_process_onecall_weather body) else none

/-- The outcomes of the three concurrent weather sub-requests of one
fetch. -/
structure WeatherHttp where
  current : HttpOutcome
  forecast : HttpOutcome
  onecall : HttpOutcome

/-- `WeatherCollector.get_weather_data` (lines 21-72): gather the three
sub-results (the sub-coroutines catch their own exceptions, so the
`isinstance(_, Exception)` guards at lines 51/57/63 reduce to the
truthiness tests), then attach each truthy sub-result under its key.
The body of the surrounding try cannot raise, so the overall fetch
always returns a record, never `None`. -/
def get_weather_data (now : String) (lat lon : ℚ) (h : WeatherHttp) : Option JVal :=
  let current_data := _get_current_weather h.current
  let forecast_data := _get_forecast_weather h.forecast
  let onecall_data := _get_onecall_weather h.onecall
  let base : List (String × JVal) :=
    [("collected_at", .str now), ("data_source", .str "openweather_api"),
     ("location", .obj [("latitude", .num lat), ("longitude", .num lon)])]
  let withCurrent := base ++
    (match current_data with
     | some v => if pyTruthy v then [("current", v)] else []
     | none => [])
  let withForecast := withCurrent ++
    (match forecast_data with
     | some v => if pyTruthy v then [("forecast", v)] else []
     | none => [])
  let withDetailed := withForecast ++
    (match onecall_data with
     | some v => if pyTruthy v then [("detailed", v)] else []
     | none => [])
  some (.obj withDetailed)

/-! ## Firebase projection (src/firebase/firebase_client.py, FirebaseClient) -/

/-- Ambient state a `FirebaseClient` method could observe (the clock used
elsewhere for document ids, and whether the Firestore client is up).  The
simplification functions are given it so that their independence from it
can be stated. -/
structure FbEnv where
  now : String
  dbReady : Bool

/-- Numeric view of a value for `min`/`max`/`sum` (Python booleans are
ints). -/
def jnumOf : JVal → Option ℚ
  | .num q => some q
  | .bool b => some (if b then 1 else 0)
  | _ => none

/-- String view of a value. -/
def jstrOf : JVal → Option String
  | .str s => some s
  | _ => none

/-- Python `min` over a list: all-numeric or all-string lists compare,
anything else raises `TypeError` (cross-type comparison; comparison of
nested sequences is not modelled — no claim evaluates it). -/
def pyMin (xs : List JVal) : Except PyErr JVal :=
  match xs.mapM jnumOf with
  | some (q :: qs) => .ok (.num (qs.foldl min q))
  | _ =>
      match xs.mapM jstrOf with
      | some (s :: ss) => .ok (.str (ss.foldl min s))
      | _ => .error .typeError

/-- Python `max`, mirror of `pyMin`. -/
def pyMax (xs : List JVal) : Except PyErr JVal :=
  match xs.mapM jnumOf with
  | some (q :: qs) => .ok (.num (qs.foldl max q))
  | _ =>
      match xs.mapM jstrOf with
      | some (s :: ss) => .ok (.str (ss.foldl max s))
      | _ => .error .typeError

/-- `round(sum(temps) / len(temps), 1)`: only numeric lists sum; the
rounding is modelled as round-half-up on rationals (the exact tie
behaviour of Python floats is immaterial: no claim evaluates the
average). -/
def pyAvgRound1 (xs : List JVal) : Except PyErr JVal :=
  match xs.mapM jnumOf with
  | some (q :: qs) =>
      let s : ℚ := (q :: qs).foldl (· + ·) 0
      .ok (.num ((round (s / (xs.length : ℚ) * 10) : ℤ) / 10))
  | _ => .error .typeError

/-- One iteration of the `indexes` loop in `_simplify_air_quality`
(lines 288-301).  The fold state is (accumulated `indexes`,
`overall_aqi`, `overall_category`); line 299 guards the overwrite with
the TRUTHINESS of the current `overall_aqi` (`if not
simplified['overall_aqi']`), not with it being unset. -/
def simplify_aq_index_step (st : List JVal × JVal × JVal) (index : JVal) :
    Except PyErr (List JVal × JVal × JVal) := do
  let code ← elemGet index "code" .null
  let name ← elemGet index "display_name" .null
  let aqi ← elemGet index "aqi" .null
  let category ← elemGet index "category" .null
  let color ← elemGet index "color" (.obj [])
  let index_simple := JVal.obj [("code", code), ("name", name), ("aqi", aqi),
    ("category", category), ("color", color)]
  let idxs := st.1 ++ [index_simple]
  if !pyTruthy st.2.1 then
    let oa ← elemGet index "aqi" .null
    let oc ← elemGet index "category" .null
    pure (idxs, oa, oc)
  else
    pure (idxs, st.2.1, st.2.2)

/-- One iteration of the `pollutants` loop in `_simplify_air_quality`
(lines 305-313): only pollutants with a truthy `concentration` are
kept. -/
def simplify_pollutant_step (acc : List JVal) (p : JVal) :
    Except PyErr (List JVal) := do
  let conc ← elemGet p "concentration" .null
  if pyTruthy conc then
    let code ← elemGet p "code" .null
    let name ← elemGet p "display_name" .null
    let c1 ← elemGet p "concentration" (.obj [])
    let value ← elemGet c1 "value" .null
    let c2 ← elemGet p "concentration" (.obj [])
    let units ← elemGet c2 "units" .null
    pure (acc ++ [JVal.obj [("code", code), ("name", name),
      ("concentration", value), ("units", units)]])
  else
    pure acc

/-- The try-block body of `_simplify_air_quality` (lines 275-315):
initial `.get` accesses in source order (lines 277-281), then the two
loops, then the assembled dict (keys in insertion order, lines
276-284). -/
def simplify_aq_attempt (v : JVal) : Except PyErr JVal := do
  let collected_at ← elemGet v "collected_at" .null
  let data_source ← elemGet v "data_source" .null
  let dominant_pollutant ← elemGet v "dominant_pollutant" .null
  let hasIdx ← pyContains v "indexes"
  let idxState ←
    if hasIdx then do
      let idxv ← pySubscript v "indexes"
      let elems ← pyIterate idxv
      elems.foldlM simplify_aq_index_step ([], .null, .null)
    else pure ([], .null, .null)
  let hasPol ← pyContains v "pollutants"
  let pols ←
    if hasPol then do
      let pv ← pySubscript v "pollutants"
      let items ← pySliceIter pv 5
      items.foldlM simplify_pollutant_step []
    else pure []
  return .obj [("collected_at", collected_at), ("data_source", data_source),
    ("overall_aqi", idxState.2.1), ("overall_category", idxState.2.2),
    ("dominant_pollutant", dominant_pollutant),
    ("indexes", .arr idxState.1), ("main_pollutants", .arr pols)]

/-- `FirebaseClient._simplify_air_quality` (lines 270-319): `None`/falsy
input gives `None`; any exception from the body is caught (lines
317-319) and the ORIGINAL record is returned unchanged.  The method
reads nothing from the client state `env`. -/
def _simplify_air_quality (_env : FbEnv) (air_quality_data : Option JVal) :
    Option JVal :=
  match air_quality_data with
  | none => none
  | some v =>
      if !pyTruthy v then none
      else
        match simplify_aq_attempt v with
        | .ok s => some s
        | .error _ => some v

/-- One iteration of the forecast loop in `_simplify_weather_data`
(lines 164-173). -/
def simplify_forecast_item_step (acc : List JVal) (item : JVal) :
    Except PyErr (List JVal) := do
  let datetime ← elemGet item "datetime" .null
  let temperature ← elemGet item "temperature" .null
  let w1 ← elemGet item "weather" (.obj [])
  let description ← elemGet w1 "description" .null
  let w2 ← elemGet item "weather" (.obj [])
  let icon ← elemGet w2 "icon" .null
  let precipitation_probability ← elemGet item "precipitation_probability" .null
  let wind_speed ← elemGet item "wind_speed" .null
  pure (acc ++ [JVal.obj [("datetime", datetime), ("temperature", temperature),
    ("description", description), ("icon", icon),
    ("precipitation_probability", precipitation_probability),
    ("wind_speed", wind_speed)]])

/-- The try-block body of `_simplify_weather_data` (lines 132-185):
initial `.get` accesses (lines 134-136), the current block (lines
143-158), the forecast block with its 8-item slice (lines 161-173) and
the min/max/avg summary of the truthy temperatures (lines 176-183). -/
def simplify_weather_attempt (v : JVal) : Except PyErr JVal := do
  let collected_at ← elemGet v "collected_at" .null
  let data_source ← elemGet v "data_source" .null
  let location ← elemGet v "location" .null
  let hasCur ← pyContains v "current"
  let currentPart : JVal ←
    if hasCur then do
      let current ← pySubscript v "current"
      if pyTruthy current then do
        let temperature ← elemGet current "temperature" .null
        let feels_like ← elemGet current "feels_like" .null
        let humidity ← elemGet current "humidity" .null
        let pressure ← elemGet current "pressure" .null
        let cw1 ← elemGet current "weather" (.obj [])
        let description ← elemGet cw1 "description" .null
        let cw2 ← elemGet current "weather" (.obj [])
        let icon ← elemGet cw2 "icon" .null
        let wv ← elemGet current "wind" (.obj [])
        let wind_speed ← elemGet wv "speed" .null
        let clouds ← elemGet current "clouds" .null
        let l1 ← elemGet current "location" (.obj [])
        let city_name ← elemGet l1 "name" .null
        let l2 ← elemGet current "location" (.obj [])
        let country ← elemGet l2 "country" .null
        let sunrise ← elemGet current "sunrise" .null
        let sunset ← elemGet current "sunset" .null
        pure (JVal.obj [("temperature", temperature), ("feels_like", feels_like),
          ("humidity", humidity), ("pressure", pressure),
          ("description", description), ("icon", icon),
          ("wind_speed", wind_speed), ("clouds", clouds),
          ("city_name", city_name), ("country", country),
          ("sunrise", sunrise), ("sunset", sunset)])
      else pure .null
    else pure .null
  let hasFc ← pyContains v "forecast"
  let fcState : List JVal × JVal ←
    if hasFc then do
      let forecast ← pySubscript v "forecast"
      if pyTruthy forecast then do
        let hasFcs ← pyContains forecast "forecasts"
        let items24 ←
          if hasFcs then do
            let fv ← pySubscript forecast "forecasts"
            let its ← pySliceIter fv 8
            its.foldlM simplify_forecast_item_step []
          else pure []
        if items24.isEmpty then pure (items24, JVal.null)
        else do
          let tempsAll ← items24.mapM (fun f => pySubscript f "temperature")
          let temps := tempsAll.filter pyTruthy
          if temps.isEmpty then pure (items24, JVal.null)
          else do
            let temp_min ← pyMin temps
            let temp_max ← pyMax temps
            let avg_temp ← pyAvgRound1 temps
            pure (items24, JVal.obj [("temp_min", temp_min),
              ("temp_max", temp_max), ("avg_temp", avg_temp)])
      else pure ([], JVal.null)
    else pure ([], JVal.null)
  return .obj [("collected_at", collected_at), ("data_source", data_source),
    ("location", location), ("current", currentPart),
    ("forecast_24h", .arr fcState.1), ("forecast_summary", fcState.2)]

/-- `FirebaseClient._simplify_weather_data` (lines 127-189): `None`/falsy
input gives `None`; any exception from the body is caught (lines
187-189) and the ORIGINAL record is returned unchanged.  The method
reads nothing from the client state `env`. -/
def _simplify_weather_data (_env : FbEnv) (weather_data : Option JVal) :
    Option JVal :=
  match weather_data with
  | none => none
  | some v =>
      if !pyTruthy v then none
      else
        match simplify_weather_attempt v with
        | .ok s => some s
        | .error _ => some v

/-- `FirebaseClient._extract_aqi` (lines 321-328): `None` (here `.null`)
when the record is falsy, has no `indexes` key or a falsy `indexes`
value, otherwise `indexes[0].get('aqi')`. -/
def _extract_aqi (air_quality_data : Option JVal) : Except PyErr JVal :=
  match air_quality_data with
  | none => .ok .null
  | some v =>
      if !pyTruthy v then .ok .null
      else do
        let has ← pyContains v "indexes"
        if !has then pure .null
        else do
          let idxv ← pySubscript v "indexes"
          if pyTruthy idxv then do
            let i0 ← pyIndexZero idxv
            elemGet i0 "aqi" .null
          else pure .null

/-- `FirebaseClient._extract_air_quality_level` (lines 330-337), the
`category` twin of `_extract_aqi`. -/
def _extract_air_quality_level (air_quality_data : Option JVal) :
    Except PyErr JVal :=
  match air_quality_data with
  | none => .ok .null
  | some v =>
      if !pyTruthy v then .ok .null
      else do
        let has ← pyContains v "indexes"
        if !has then pure .null
        else do
          let idxv ← pySubscript v "indexes"
          if pyTruthy idxv then do
            let i0 ← pyIndexZero idxv
            elemGet i0 "category" .null
          else pure .null

/-! ## Orchestrator (src/main.py, DataCollectionOrchestrator) -/

/-- Configuration defaults (src/utils/config.py): `DEFAULT_LATITUDE` /
`DEFAULT_LONGITUDE` resolved at startup. -/
structure Config where
  default_latitude : ℚ
  default_longitude : ℚ

/-- The `collection_status` block of the document built by
`collect_all_data` (src/main.py lines 129-133). -/
structure CollectionStatus where
  air_quality_success : Bool
  weather_success : Bool
  overall_success : Bool
  deriving DecidableEq

/-- The `location` block of the collection document
(src/main.py lines 122-126). -/
structure LocationInfo where
  latitude : ℚ
  longitude : ℚ
  source : String
  deriving DecidableEq

/-- The collection document built by `collect_all_data`
(src/main.py lines 120-134).  `air_quality` / `weather` are the two
collector results, `none` standing for Python `None`. -/
structure CollectionDocument where
  timestamp : String
  location : LocationInfo
  air_quality : Option JVal
  weather : Option JVal
  collection_status : CollectionStatus

/-- `DataCollectionOrchestrator.collect_all_data` (src/main.py lines
83-140).  The two awaited collector tasks are passed as
`Except PyErr (Option JVal)`: `asyncio.gather(..., return_exceptions=True)`
hands back either the task's value (`Option JVal`, `none` for Python
`None`) or its exception, and lines 111-117 replace an exception by
`None`.  `now` is the UTC timestamp string taken at line 121. -/
def collect_all_data (cfg : Config) (lat lon : Option ℚ)
    (air_quality_res weather_res : Except PyErr (Option JVal))
    (now : String) : CollectionDocument :=
  let latitude := match lat with | some a => a | none => cfg.default_latitude
  let longitude := match lon with | some b => b | none => cfg.default_longitude
  let air_quality_data : Option JVal :=
    match air_quality_res with | .error _ => none | .ok v => v
  let weather_data : Option JVal :=
    match weather_res with | .error _ => none | .ok v => v
  { timestamp := now
    location :=
      { latitude := latitude
        longitude := longitude
        source := if lat.isSome && lon.isSome then "user_provided" else "default_config" }
    air_quality := air_quality_data
    weather := weather_data
    collection_status :=
      { air_quality_success := air_quality_data.isSome
        weather_success := weather_data.isSome
        overall_success := air_quality_data.isSome || weather_data.isSome } }

/-! ## Storage layer (src/storage/data_storage.py, DataStorage) -/

/-- Ambient state consulted by `DataStorage`: which sink-enabling
environment variables are set (`_get_storage_methods`, lines 24-43) and
whether each sink's  I/O succeeds this run.  `webhookStatus` /
`customApiStatus` are the HTTP status codes of the two relay posts. -/
structure StorageEnv where
  hasDatabaseUrl : Bool
  hasWebhookUrl : Bool
  hasCustomApiUrl : Bool
  localWriteOk : Bool
  asyncpgImportOk : Bool
  postgresWriteOk : Bool
  webhookReachable : Bool
  webhookStatus : Nat
  customApiReachable : Bool
  customApiStatus : Nat

/-- `DataStorage._get_storage_methods` (lines 24-43): `local_json` is
always enabled, the other sinks iff their URL variable is set. -/
def storage_methods (env : StorageEnv) : List String :=
  ["local_json"]
    ++ (if env.hasDatabaseUrl then ["postgresql"] else [])
    ++ (if env.hasWebhookUrl then ["webhook"] else [])
    ++ (if env.hasCustomApiUrl then ["custom_api"] else [])

/-- The try-block body of `_save_local_json` (lines 88-108): the
mkdir/open/write sequence either completes and returns `True`, or raises
an I/O error. -/
def local_json_attempt (env : StorageEnv) : Except PyErr Bool :=
  if env.localWriteOk then .ok true else .error .ioError

/-- `DataStorage._save_local_json` (lines 86-112): the whole body is in
try/except; any exception is logged and turned into the return value
`False`, so the coroutine itself never raises. -/
def _save_local_json (env : StorageEnv) : Except PyErr Bool :=
  match local_json_attempt env with
  | .ok b => .ok b
  | .error _ => .ok false

/-- The try-block body of `_save_postgresql` (lines 116-158): import
asyncpg (may raise ImportError), return `False` when `DATABASE_URL` is
unset, otherwise connect and insert (success returns `True`, any failure
raises). -/
def postgresql_attempt (env : StorageEnv) : Except PyErr Bool :=
  if !env.asyncpgImportOk then .error .importError
  else if !env.hasDatabaseUrl then .ok false
  else if env.postgresWriteOk then .ok true else .error .ioError

/-- `DataStorage._save_postgresql` (lines 114-165): `except ImportError`
and `except Exception` both return `False`, so the coroutine never
raises. -/
def _save_postgresql (env : StorageEnv) : Except PyErr Bool :=
  match postgresql_attempt env with
  | .ok b => .ok b
  | .error _ => .ok false

/-- The try-block body of `_send_webhook` (lines 169-196): return `False`
when `WEBHOOK_URL` is unset, raise on transport failure, return `True`
iff the response status is 200/201/202. -/
def webhook_attempt (env : StorageEnv) : Except PyErr Bool :=
  if !env.hasWebhookUrl then .ok false
  else if !env.webhookReachable then .error .connectionError
  else .ok (decide (env.webhookStatus ∈ [200, 201, 202]))

/-- `DataStorage._send_webhook` (lines 167-200): the catch-all except
returns `False`, so the coroutine never raises. -/
def _send_webhook (env : StorageEnv) : Except PyErr Bool :=
  match webhook_attempt env with
  | .ok b => .ok b
  | .error _ => .ok false

/-- The try-block body of `_send_custom_api` (lines 204-222). -/
def custom_api_attempt (env : StorageEnv) : Except PyErr Bool :=
  if !env.hasCustomApiUrl then .ok false
  else if !env.customApiReachable then .error .connectionError
  else .ok (decide (env.customApiStatus ∈ [200, 201, 202]))

/-- `DataStorage._send_custom_api` (lines 202-226): the catch-all except
returns `False`, so the coroutine never raises. -/
def _send_custom_api (env : StorageEnv) : Except PyErr Bool :=
  match custom_api_attempt env with
  | .ok b => .ok b
  | .error _ => .ok false

/-- Whether an awaited coroutine result is an exception object
(`isinstance(result, Exception)` in `save_data`, line 79). -/
def isRaised (r : Except PyErr Bool) : Bool :=
  match r with | .error _ => true | .ok _ => false

/-- Whether a sink attempt really performed its write: the try-block body
ran to completion AND returned `True`. -/
def attemptSucceeded (r : Except PyErr Bool) : Bool :=
  match r with | .ok true => true | _ => false

/-- `DataStorage.save_data` (lines 45-84).  The task list is built by the
four membership tests on `storage_methods` (lines 60-70), gathered with
`return_exceptions=True`; the result map assigns
`results[method] = not isinstance(result, Exception)` pairing
`storage_methods[i]` with `task_results[i]` (lines 76-81; the
`i < len(task_results)` guard is the truncation built into `zip`).
The document argument of the Python method does not influence any
sink's success, which is determined by `env`; it is therefore omitted
here. -/
def save_data (env : StorageEnv) : List (String × Bool) :=
  let methods := storage_methods env
  let tasks : List (Except PyErr Bool) :=
    (if methods.contains "local_json" then [_save_local_json env] else [])
      ++ (if methods.contains "postgresql" then [_save_postgresql env] else [])
      ++ (if methods.contains "webhook" then [_send_webhook env] else [])
      ++ (if methods.contains "custom_api" then [_send_custom_api env] else [])
  (methods.zip tasks).map fun mr => (mr.1, !isRaised mr.2)

/-- The spec-side reading of "the sink's write actually succeeded", per
sink name (used to state claim C3 as written; compares against the
attempt bodies above). -/
def sinkActuallySucceeded (env : StorageEnv) (m : String) : Bool :=
  if m = "local_json" then attemptSucceeded (local_json_attempt env)
  else if m = "postgresql" then attemptSucceeded (postgresql_attempt env)
  else if m = "webhook" then attemptSucceeded (webhook_attempt env)
  else if m = "custom_api" then attemptSucceeded (custom_api_attempt env)
  else false

/-- `DataCollectionOrchestrator.run` (src/main.py lines 142-168): collect,
then save, then return the collected document; an exception would be
re-raised (lines 164-168), but neither `collect_all_data` nor
`save_data` can raise one. -/
def orchestrator_run (cfg : Config) (lat lon : Option ℚ)
    (air_quality_res weather_res : Except PyErr (Option JVal))
    (now : String) (senv : StorageEnv) : Except PyErr CollectionDocument :=
  let data := collect_all_data cfg lat lon air_quality_res weather_res now
  let _result := save_data senv
  .ok data

/-! ## HTTP surface (src/main.py, trigger_location_collection) -/

/-- `POST /collect/location` (src/main.py lines 290-326): validate the
coordinate ranges (lines 299-302, the raised 400 passes through the
`except HTTPException: raise` at lines 319-320), then schedule the
background run (line 307) and answer 200 immediately.  The result is the
HTTP status together with the coordinates handed to the scheduled
background task (`none` when no task was scheduled); the task itself
runs after the response is sent. -/
def trigger_location_collection (latitude longitude : ℚ) :
    Nat × Option (ℚ × ℚ) :=
  if ¬(-90 ≤ latitude ∧ latitude ≤ 90) then (400, none)
  else if ¬(-180 ≤ longitude ∧ longitude ≤ 180) then (400, none)
  else (200, some (latitude, longitude))

/-! ## Claim-side observation helpers -/

/-- Follow a key path through nested JSON objects (`none` when a step is
missing or not an object). -/
def jpath (v : Option JVal) (keys : List String) : Option JVal :=
  match v, keys with
  | some w, [] => some w
  | some (.obj kvs), k :: rest => jpath (jlookup kvs k) rest
  | _, _ => none

/-- Index into a JSON array (`none` when not an array or out of
range). -/
def jidx (v : Option JVal) (i : Nat) : Option JVal :=
  match v with
  | some (.arr xs) => xs.get? i
  | _ => none

/-- Whether an `Except` carries a value. -/
def exceptOk {α : Type} (r : Except PyErr α) : Bool :=
  match r with | .ok _ => true | .error _ => false

/-! ## Shared lemmas -/

/-- Inversion of a successful `Except` bind. -/
theorem except_bind_ok {α β : Type} {x : Except PyErr α} {f : α → Except PyErr β}
    {v : β} (h : x >>= f = .ok v) : ∃ a, x = .ok a ∧ f a = .ok v := by
  cases x with
  | ok a => exact ⟨a, rfl, h⟩
  | error e => exact Except.noConfusion h

/-- A successful run of the `_process_current_weather` try-block body
always yields a (non-empty) object: its `return` builds the 13-entry
dict literal. -/
theorem current_weather_attempt_ok_shape (data : List (String × JVal)) (v : JVal)
    (h : current_weather_attempt data = .ok v) :
    ∃ fs, v = JVal.obj fs ∧ fs ≠ [] := by
  unfold current_weather_attempt at h
  obtain ⟨a, -, h⟩ := except_bind_ok h
  obtain ⟨a, -, h⟩ := except_bind_ok h
  obtain ⟨a, -, h⟩ := except_bind_ok h
  obtain ⟨a, -, h⟩ := except_bind_ok h
  obtain ⟨a, -, h⟩ := except_bind_ok h
  obtain ⟨a, -, h⟩ := except_bind_ok h
  obtain ⟨a, -, h⟩ := except_bind_ok h
  obtain ⟨a, -, h⟩ := except_bind_ok h
  obtain ⟨a, -, h⟩ := except_bind_ok h
  obtain ⟨a, -, h⟩ := except_bind_ok h
  obtain ⟨a, -, h⟩ := except_bind_ok h
  obtain ⟨a, -, h⟩ := except_bind_ok h
  obtain ⟨a, -, h⟩ := except_bind_ok h
  obtain ⟨a, -, h⟩ := except_bind_ok h
  obtain ⟨a, -, h⟩ := except_bind_ok h
  obtain ⟨a, -, h⟩ := except_bind_ok h
  obtain ⟨a, -, h⟩ := except_bind_ok h
  obtain ⟨a, -, h⟩ := except_bind_ok h
  obtain ⟨a, -, h⟩ := except_bind_ok h
  obtain ⟨a, -, h⟩ := except_bind_ok h
  obtain ⟨a, -, h⟩ := except_bind_ok h
  obtain ⟨a, -, h⟩ := except_bind_ok h
  obtain ⟨a, -, h⟩ := except_bind_ok h
  injection h with h
  exact ⟨_, h.symm, by simp⟩

/-- `_process_current_weather` always produces a truthy (non-empty
object) value: either the full 13-entry dict or the 2-entry error
marker. -/
theorem pyTruthy_process_current (data : List (String × JVal)) :
    pyTruthy (_process_current_weather data) = true := by
  unfold _process_current_weather
  cases h : current_weather_attempt data with
  | error e => rfl
  | ok v =>
      obtain ⟨fs, rfl, hne⟩ := current_weather_attempt_ok_shape data v h
      simpa [pyTruthy] using hne

/-- The `local_json` sink coroutine never surfaces an exception. -/
theorem _save_local_json_not_raised (env : StorageEnv) :
    isRaised (_save_local_json env) = false := by
  unfold _save_local_json
  split <;> rfl

/-- The `postgresql` sink coroutine never surfaces an exception. -/
theorem _save_postgresql_not_raised (env : StorageEnv) :
    isRaised (_save_postgresql env) = false := by
  unfold _save_postgresql
  split <;> rfl

/-- The `webhook` sink coroutine never surfaces an exception. -/
theorem _send_webhook_not_raised (env : StorageEnv) :
    isRaised (_send_webhook env) = false := by
  unfold _send_webhook
  split <;> rfl

/-- The `custom_api` sink coroutine never surfaces an exception. -/
theorem _send_custom_api_not_raised (env : StorageEnv) :
    isRaised (_send_custom_api env) = false := by
  unfold _send_custom_api
  split <;> rfl

/-! ## Concrete inputs used by several claims -/

/-- A storage environment in which only the always-on `local_json` sink
is configured and its filesystem write fails. -/
def envLocalFail : StorageEnv :=
  { hasDatabaseUrl := false, hasWebhookUrl := false, hasCustomApiUrl := false,
    localWriteOk := false, asyncpgImportOk := true, postgresWriteOk := true,
    webhookReachable := true, webhookStatus := 200,
    customApiReachable := true, customApiStatus := 200 }

/-- The air-quality payload of the end-to-end Paris scenario:
`{indexes: [{code: uaqi, aqi: 42, category: Good}], pollutants: []}`. -/
def aqPayloadParis : List (String × JVal) :=
  [("indexes", .arr [.obj [("code", .str "uaqi"), ("aqi", .num 42),
      ("category", .str "Good")]]),
   ("pollutants", .arr [])]

/-- The weather current-conditions payload of the end-to-end Paris
scenario: `{main: {temp: 22, humidity: 65}, weather: [{description:
clear}], wind: {speed: 3}, clouds: {all: 0}, sys: {country: FR},
name: Paris}`. -/
def weatherCurrentParis : List (String × JVal) :=
  [("main", .obj [("temp", .num 22), ("humidity", .num 65)]),
   ("weather", .arr [.obj [("description", .str "clear")]]),
   ("wind", .obj [("speed", .num 3)]),
   ("clouds", .obj [("all", .num 0)]),
   ("sys", .obj [("country", .str "FR")]),
   ("name", .str "Paris")]

/-- An upstream air-quality body whose `indexes` entry is a bare number,
so that `index.get(...)` in the processing loop raises
`AttributeError`. -/
def aqBadIndexes : List (String × JVal) :=
  [("indexes", JVal.arr [.num 42])]

/-- An air-quality record whose first index has `aqi = 0` and whose
second has `aqi = 99`. -/
def aqZeroFirst : JVal :=
  .obj [("indexes", .arr [
    .obj [("aqi", .num 0), ("category", .str "Good")],
    .obj [("aqi", .num 99), ("category", .str "Bad")]])]

/-! ## Claims -/

/-- C1: for every collection run (any coordinate arguments, any
combination of client outcomes) the document built by
`collect_all_data` satisfies `overall_success = air_quality_success OR
weather_success`, where `air_quality_success` is true iff the
air-quality record is non-null and `weather_success` is true iff the
weather record is non-null. -/
theorem C1_overall_success_invariant (cfg : Config) (lat lon : Option ℚ)
    (aqRes wRes : Except PyErr (Option JVal)) (now : String) :
    ((collect_all_data cfg lat lon aqRes wRes now).collection_status.overall_success
      = ((collect_all_data cfg lat lon aqRes wRes now).collection_status.air_quality_success
        || (collect_all_data cfg lat lon aqRes wRes now).collection_status.weather_success))
    ∧ ((collect_all_data cfg lat lon aqRes wRes now).collection_status.air_quality_success
      = (collect_all_data cfg lat lon aqRes wRes now).air_quality.isSome)
    ∧ ((collect_all_data cfg lat lon aqRes wRes now).collection_status.weather_success
      = (collect_all_data cfg lat lon aqRes wRes now).weather.isSome) :=
  ⟨rfl, rfl, rfl⟩

/-- C2 counterexample: with only the mandatory local sink configured and
its write failing, the orchestrator run still returns `.ok` — the
failure is NOT propagated to the caller. -/
theorem C2_counterexample :
    attemptSucceeded (local_json_attempt envLocalFail) = false
    ∧ exceptOk (orchestrator_run ⟨48.8566, 2.3522⟩ none none (.ok none) (.ok none)
        "t" envLocalFail) = true :=
  ⟨rfl, rfl⟩

/-- C2 amended: a failure of the mandatory local JSON write is caught
inside `_save_local_json`, which returns `False` instead of raising, so
the orchestrator `run` always completes and returns the collection
document — it never fails because of persistence. -/
theorem C2_run_never_fails_on_persistence (cfg : Config) (lat lon : Option ℚ)
    (aqRes wRes : Except PyErr (Option JVal)) (now : String) (env : StorageEnv) :
    _save_local_json env = .ok env.localWriteOk
    ∧ orchestrator_run cfg lat lon aqRes wRes now env
        = .ok (collect_all_data cfg lat lon aqRes wRes now) := by
  constructor
  · unfold _save_local_json local_json_attempt
    cases h : env.localWriteOk <;> rfl
  · rfl

/-- C3 counterexample: with the local write failing, the sink's write
did not succeed, yet `save_data` maps `local_json` to `true` (the entry
records "did not raise", not "succeeded"). -/
theorem C3_counterexample :
    save_data envLocalFail = [("local_json", true)]
    ∧ sinkActuallySucceeded envLocalFail "local_json" = false :=
  ⟨rfl, rfl⟩

/-- C3 amended: `save_data` returns one entry per configured sink, in
configuration order, and each entry records whether the sink's coroutine
raised — since every sink catches its own exceptions and returns a
boolean, every configured sink is attempted (one sink's failure cannot
prevent the others) and every entry is `true`, even when the underlying
write failed. -/
theorem C3_save_data_reports_not_raised (env : StorageEnv) :
    save_data env = (storage_methods env).map (fun m => (m, true)) := by
  obtain ⟨hdb, hwb, hca, lwo, aio, pwo, wr, ws, car, cs⟩ := env
  cases hdb <;> cases hwb <;> cases hca <;>
    simp [save_data, storage_methods, _save_local_json_not_raised,
      _save_postgresql_not_raised, _send_webhook_not_raised,
      _send_custom_api_not_raised]

/-- C10: the provenance tag is `user_provided` exactly when both
coordinate arguments are supplied; with one (or none) supplied, the
supplied value is combined with the configured default and the tag is
`default_config`. -/
theorem C10_provenance_tag (cfg : Config) (a b : ℚ)
    (aqRes wRes : Except PyErr (Option JVal)) (now : String) :
    (collect_all_data cfg (some a) (some b) aqRes wRes now).location
        = ⟨a, b, "user_provided"⟩
    ∧ (collect_all_data cfg (some a) none aqRes wRes now).location
        = ⟨a, cfg.default_longitude, "default_config"⟩
    ∧ (collect_all_data cfg none (some b) aqRes wRes now).location
        = ⟨cfg.default_latitude, b, "default_config"⟩
    ∧ (collect_all_data cfg none none aqRes wRes now).location
        = ⟨cfg.default_latitude, cfg.default_longitude, "default_config"⟩ :=
  ⟨rfl, rfl, rfl, rfl⟩

/-- C4 counterexample: a payload on which response processing raises
(`indexes` holding a bare number) does NOT make the fetch return a
Failure: `get_air_quality_data` returns the error-marker record (not
`None`), and the orchestrator records `air_quality_success = true`, not
`false` as claimed. -/
theorem C4_counterexample :
    air_quality_attempt "t" aqBadIndexes = .error .attributeError
    ∧ (get_air_quality_data "t" (.resp 200 aqBadIndexes)).isSome = true
    ∧ (collect_all_data ⟨48.8566, 2.3522⟩ none none
        (.ok (get_air_quality_data "t" (.resp 200 aqBadIndexes)))
        (.ok none) "t").collection_status.air_quality_success = true :=
  ⟨rfl, rfl, rfl⟩

/-- C4 amended: when response processing raises a parse exception, the
exception is caught and converted into an `{error, raw_data}` marker
record carrying the raw payload; the fetch returns that record (a
non-null value, unlike the `None` used for HTTP/transport errors), so
the orchestrator records `air_quality_success = true` for that cycle. -/
theorem C4_parse_error_marker (now : String) (raw : List (String × JVal))
    (e : PyErr) (cfg : Config) (lat lon : Option ℚ)
    (wRes : Except PyErr (Option JVal)) (now2 : String)
    (h : air_quality_attempt now raw = .error e) :
    get_air_quality_data now (.resp 200 raw)
        = some (.obj [("error", .str (errStr e)), ("raw_data", .obj raw)])
    ∧ (collect_all_data cfg lat lon
        (.ok (get_air_quality_data now (.resp 200 raw))) wRes
        now2).collection_status.air_quality_success = true := by
  have hp : _process_air_quality_response now raw
      = [("error", .str (errStr e)), ("raw_data", .obj raw)] := by
    unfold _process_air_quality_response
    rw [h]
  have hg : get_air_quality_data now (.resp 200 raw)
      = some (.obj [("error", .str (errStr e)), ("raw_data", .obj raw)]) := by
    show some (JVal.obj (_process_air_quality_response now raw)) = _
    rw [hp]
  refine ⟨hg, ?_⟩
  show (match (Except.ok (get_air_quality_data now (.resp 200 raw)) :
      Except PyErr (Option JVal)) with
    | .error _ => none | .ok v => v).isSome = true
  rw [hg]
  rfl

/-- C4 witness: the amended statement at the concrete bad payload. -/
theorem C4_parse_error_marker_witness :
    get_air_quality_data "t" (.resp 200 aqBadIndexes)
        = some (.obj [("error", .str "AttributeError"), ("raw_data", .obj aqBadIndexes)])
    ∧ (collect_all_data ⟨48.8566, 2.3522⟩ none none
        (.ok (get_air_quality_data "t" (.resp 200 aqBadIndexes)))
        (.ok none) "t").collection_status.air_quality_success = true :=
  C4_parse_error_marker "t" aqBadIndexes .attributeError ⟨48.8566, 2.3522⟩
    none none (.ok none) "t" rfl

/-- C5 counterexample: in the Paris scenario as literally given, the
current-conditions payload lacks `main.feels_like`, so the processed
current block is the error marker and has NO `temperature` field — the
claimed `weather.current.temperature == 22` is false (the status and
AQI conjuncts do hold). -/
theorem C5_counterexample :
    (collect_all_data ⟨48.8566, 2.3522⟩ (some 48.8566) (some 2.3522)
        (.ok (get_air_quality_data "t" (.resp 200 aqPayloadParis)))
        (.ok (get_weather_data "t" 48.8566 2.3522
          ⟨.resp 200 weatherCurrentParis, .resp 404 [], .resp 404 []⟩))
        "t").collection_status = ⟨true, true, true⟩
    ∧ jpath (jidx (jpath (collect_all_data ⟨48.8566, 2.3522⟩ (some 48.8566) (some 2.3522)
        (.ok (get_air_quality_data "t" (.resp 200 aqPayloadParis)))
        (.ok (get_weather_data "t" 48.8566 2.3522
          ⟨.resp 200 weatherCurrentParis, .resp 404 [], .resp 404 []⟩))
        "t").air_quality ["indexes"]) 0) ["aqi"] = some (.num 42)
    ∧ ¬ (jpath (collect_all_data ⟨48.8566, 2.3522⟩ (some 48.8566) (some 2.3522)
        (.ok (get_air_quality_data "t" (.resp 200 aqPayloadParis)))
        (.ok (get_weather_data "t" 48.8566 2.3522
          ⟨.resp 200 weatherCurrentParis, .resp 404 [], .resp 404 []⟩))
        "t").weather ["current", "temperature"] = some (.num 22)) :=
  ⟨rfl, rfl, fun h => Option.noConfusion h⟩

/-- C5 amended: with the scenario payloads as given (and any outcome of
the forecast and one-call sub-requests), the resulting document has
`air_quality.indexes[0].aqi == 42` and `collection_status ==
{true, true, true}`, but current-weather processing fails on the
missing `main.feels_like` key, so `weather.current` is the
`{error, raw_data}` marker and carries no `temperature` field. -/
theorem C5_paris_scenario (cfg : Config) (now1 now2 now3 : String)
    (fOut oOut : HttpOutcome) :
    (collect_all_data cfg (some 48.8566) (some 2.3522)
        (.ok (get_air_quality_data now1 (.resp 200 aqPayloadParis)))
        (.ok (get_weather_data now2 48.8566 2.3522
          ⟨.resp 200 weatherCurrentParis, fOut, oOut⟩))
        now3).collection_status = ⟨true, true, true⟩
    ∧ jpath (jidx (jpath (collect_all_data cfg (some 48.8566) (some 2.3522)
        (.ok (get_air_quality_data now1 (.resp 200 aqPayloadParis)))
        (.ok (get_weather_data now2 48.8566 2.3522
          ⟨.resp 200 weatherCurrentParis, fOut, oOut⟩))
        now3).air_quality ["indexes"]) 0) ["aqi"] = some (.num 42)
    ∧ jpath (collect_all_data cfg (some 48.8566) (some 2.3522)
        (.ok (get_air_quality_data now1 (.resp 200 aqPayloadParis)))
        (.ok (get_weather_data now2 48.8566 2.3522
          ⟨.resp 200 weatherCurrentParis, fOut, oOut⟩))
        now3).weather ["current"]
      = some (.obj [("error", .str "feels_like"),
          ("raw_data", .obj weatherCurrentParis)])
    ∧ jpath (collect_all_data cfg (some 48.8566) (some 2.3522)
        (.ok (get_air_quality_data now1 (.resp 200 aqPayloadParis)))
        (.ok (get_weather_data now2 48.8566 2.3522
          ⟨.resp 200 weatherCurrentParis, fOut, oOut⟩))
        now3).weather ["current", "temperature"] = none :=
  ⟨rfl, rfl, rfl, rfl⟩

/-- C6: when the forecast sub-request fails (exception or non-success
status, i.e. its sub-coroutine yields `None`) while current-conditions
answers 200, the weather fetch still returns a record whose `current`
entry is the processed current block and which has no `forecast` entry,
and the orchestrator records `weather_success = true`. -/
theorem C6_partial_forecast_failure (now : String) (lat lon : ℚ)
    (cbody : List (String × JVal)) (hf ho : HttpOutcome)
    (cfg : Config) (latA lonA : Option ℚ)
    (aqRes : Except PyErr (Option JVal)) (now2 : String)
    (hffail : _get_forecast_weather hf = none) :
    (get_weather_data now lat lon ⟨.resp 200 cbody, hf, ho⟩).isSome = true
    ∧ jpath (get_weather_data now lat lon ⟨.resp 200 cbody, hf, ho⟩)
        ["current"] = some (_process_current_weather cbody)
    ∧ jpath (get_weather_data now lat lon ⟨.resp 200 cbody, hf, ho⟩)
        ["forecast"] = none
    ∧ (collect_all_data cfg latA lonA aqRes
        (.ok (get_weather_data now lat lon ⟨.resp 200 cbody, hf, ho⟩))
        now2).collection_status.weather_success = true := by
  refine ⟨rfl, ?_, ?_, rfl⟩
  · simp [get_weather_data, _get_current_weather, jpath, jlookup,
      pyTruthy_process_current, hffail]
  · rcases hoc : _get_onecall_weather ho with _ | v
    · simp [get_weather_data, _get_current_weather, jpath, jlookup,
        pyTruthy_process_current, hffail, hoc]
    · by_cases hv : pyTruthy v = true <;>
        simp [get_weather_data, _get_current_weather, jpath, jlookup,
          pyTruthy_process_current, hffail, hoc, hv]

/-- C6 witness: the statement at the Paris current payload with a 404
forecast response. -/
theorem C6_partial_forecast_failure_witness :
    (get_weather_data "t" 48.8566 2.3522
        ⟨.resp 200 weatherCurrentParis, .resp 404 [], .resp 404 []⟩).isSome = true
    ∧ jpath (get_weather_data "t" 48.8566 2.3522
        ⟨.resp 200 weatherCurrentParis, .resp 404 [], .resp 404 []⟩)
        ["current"] = some (_process_current_weather weatherCurrentParis)
    ∧ jpath (get_weather_data "t" 48.8566 2.3522
        ⟨.resp 200 weatherCurrentParis, .resp 404 [], .resp 404 []⟩)
        ["forecast"] = none
    ∧ (collect_all_data ⟨48.8566, 2.3522⟩ none none (.ok none)
        (.ok (get_weather_data "t" 48.8566 2.3522
          ⟨.resp 200 weatherCurrentParis, .resp 404 [], .resp 404 []⟩))
        "t").collection_status.weather_success = true :=
  C6_partial_forecast_failure "t" 48.8566 2.3522 weatherCurrentParis
    (.resp 404 []) (.resp 404 []) ⟨48.8566, 2.3522⟩ none none (.ok none) "t" rfl

/-- C7: evaluation at the failing input.  On a record whose first index
has `aqi = 0`, the projection's `overall_aqi`/`overall_category` come
from the SECOND index (99 / Bad) because the guard at line 299 tests the
truthiness of the accumulated `overall_aqi` (`if not
simplified['overall_aqi']`) and `0` is falsy — while `indexes[0].aqi`
is `0` and the sibling helper `_extract_aqi` (which uses `indexes[0]`
strictly, as does the claim) returns `0`. -/
theorem C7_zero_aqi_overridden :
    jpath (_simplify_air_quality ⟨"t", true⟩ (some aqZeroFirst)) ["overall_aqi"]
        = some (.num 99)
    ∧ jpath (_simplify_air_quality ⟨"t", true⟩ (some aqZeroFirst)) ["overall_category"]
        = some (.str "Bad")
    ∧ jpath (jidx (jpath (some aqZeroFirst) ["indexes"]) 0) ["aqi"]
        = some (.num 0)
    ∧ jpath (jidx (jpath (some aqZeroFirst) ["indexes"]) 0) ["category"]
        = some (.str "Good")
    ∧ _extract_aqi (some aqZeroFirst) = .ok (.num 0)
    ∧ _extract_air_quality_level (some aqZeroFirst) = .ok (.str "Good") :=
  ⟨rfl, rfl, rfl, rfl, rfl, rfl⟩

/-- C8: `POST /collect/location` returns 400 and schedules no background
run when either coordinate is out of range, and answers 200 with the run
scheduled (the response not waiting for it) when both are in range. -/
theorem C8_location_validation (latitude longitude : ℚ) :
    ((latitude < -90 ∨ 90 < latitude ∨ longitude < -180 ∨ 180 < longitude) →
      trigger_location_collection latitude longitude = (400, none))
    ∧ ((-90 ≤ latitude ∧ latitude ≤ 90) → (-180 ≤ longitude ∧ longitude ≤ 180) →
      trigger_location_collection latitude longitude
        = (200, some (latitude, longitude))) := by
  unfold trigger_location_collection
  constructor
  · intro h
    by_cases hA : -90 ≤ latitude ∧ latitude ≤ 90
    · rw [if_neg (not_not_intro hA)]
      by_cases hB : -180 ≤ longitude ∧ longitude ≤ 180
      · exfalso
        rcases h with h | h | h | h <;> linarith [hA.1, hA.2, hB.1, hB.2]
      · rw [if_pos hB]
    · rw [if_pos hA]
  · intro hA hB
    rw [if_neg (not_not_intro hA), if_neg (not_not_intro hB)]

/-- C8 witness: latitude 95 gives a 400 with no task; the Paris
coordinate gives a 200 with the task scheduled. -/
theorem C8_location_validation_witness :
    trigger_location_collection 95 0 = (400, none)
    ∧ trigger_location_collection 48.8566 2.3522
        = (200, some (48.8566, 2.3522)) :=
  ⟨(C8_location_validation 95 0).1 (.inr (.inl (by norm_num))),
   (C8_location_validation 48.8566 2.3522).2 (by norm_num) (by norm_num)⟩

/-- C9: the projection step is deterministic and reads no mutable
external state — two runs of the simplification functions on equal
collection records, under arbitrary (and possibly different) ambient
client states, produce identical output. -/
theorem C9_projection_deterministic (e1 e2 : FbEnv)
    (aq1 aq2 w1 w2 : Option JVal) (haq : aq1 = aq2) (hw : w1 = w2) :
    _simplify_air_quality e1 aq1 = _simplify_air_quality e2 aq2
    ∧ _simplify_weather_data e1 w1 = _simplify_weather_data e2 w2 := by
  subst haq
  subst hw
  exact ⟨rfl, rfl⟩

/-- C9 witness: the statement at a concrete record and two different
ambient states. -/
theorem C9_projection_deterministic_witness :
    _simplify_air_quality ⟨"t1", true⟩ (some aqZeroFirst)
        = _simplify_air_quality ⟨"t2", false⟩ (some aqZeroFirst)
    ∧ _simplify_weather_data ⟨"t1", true⟩ (some (.obj [("current", .obj [("temperature", .num 20)])]))
        = _simplify_weather_data ⟨"t2", false⟩ (some (.obj [("current", .obj [("temperature", .num 20)])])) :=
  C9_projection_deterministic ⟨"t1", true⟩ ⟨"t2", false⟩
    (some aqZeroFirst) (some aqZeroFirst)
    (some (.obj [("current", .obj [("temperature", .num 20)])]))
    (some (.obj [("current", .obj [("temperature", .num 20)])])) rfl rfl

end OptilmAir
